import Mathlib

/-!
Shallow embedding of the pyadjoint Taylor verifier
(`pyadjoint/verification.py`) and of the generic equation-solve block
(`fenics_adjoint/solving.py`).

Numeric values are modelled over `ℚ` (the algebraic content of the
Python float computations); `numpy.log` is an external capability and is
passed as an explicit parameter.  The symbolic UFL/backend operations
(derivative, adjoint, action, assembly, linear solve, boundary-condition
handling, ...) are external collaborators of this core, so they are
modelled as constructors of a free term algebra `Term`: each backend
call builds the corresponding node, and every definition stays
executable.  Python `None` is `Option.none` (or the explicit `Term.pyNone`
object where a `None` reference is passed on), raised exceptions are
`Except.error`, and in-place mutation (`bc.apply(vec)`, `self.adj_sol = ...`)
is modelled by explicit value passing.
-/

/-! ## pyadjoint/verification.py -/

/-- A control-space argument: either a single overloaded value or a
Python list/tuple of values (what `isinstance(m, (list, tuple))` tests). -/
inductive ControlArg (V : Type) where
  | single (v : V)
  | listArg (vs : List V)
deriving DecidableEq

/-- `isinstance(m, (list, tuple))`. -/
def ControlArg.isList {V : Type} : ControlArg V → Bool
  | .single _ => false
  | .listArg _ => true

/-- `Enlist`: view the argument as a list, wrapping a non-list argument
into a one-element list. -/
def ControlArg.enlist {V : Type} : ControlArg V → List V
  | .single v => [v]
  | .listArg vs => vs

/-- `Enlist.delist(ret)`: return `ret[0]` when the original argument was
not a list, and the whole list otherwise. -/
def delistAs {V : Type} [Inhabited V] : ControlArg V → List V → ControlArg V
  | .single _, ret => .single (ret.headD default)
  | .listArg _, ret => .listArg ret

/-- The `_ad_add` / `_ad_mul` / `_ad_dot` operations that overloaded
types of the control space provide. -/
structure OverloadedOps (V : Type) where
  ad_add : V → V → V
  ad_mul : V → ℚ → V
  ad_dot : V → V → ℚ

/-- A reduced functional as `taylor_test` uses it: its declared controls,
its evaluation map, and the value of `J.derivative()` (the functional's
own reverse pass), which already has the control-list shape. -/
structure ReducedFunctional (V : Type) where
  controls : List Nat
  eval : ControlArg V → ℚ
  derivative : ControlArg V

/-- Python `min` over a list; the lists it is applied to in this module
are nonempty (Python would raise on an empty list). -/
def pymin (l : List ℚ) : ℚ :=
  match l with
  | [] => 0
  | x :: xs => xs.foldl min x

/-- `convergence_rates(E_values, eps_values)` from verification.py:
for `i in range(1, len(eps_values))` append
`log(E_values[i]/E_values[i-1]) / log(eps_values[i]/eps_values[i-1])`.
`log` is numpy's logarithm, an external capability. -/
def convergence_rates (log : ℚ → ℚ) (E_values eps_values : List ℚ) : List ℚ :=
  ((List.range eps_values.length).drop 1).map (fun i =>
    log (E_values.getD i 0 / E_values.getD (i - 1) 0) /
      log (eps_values.getD i 0 / eps_values.getD (i - 1) 0))

/-- `taylor_test(J, m, h, dJdm=None, Hm=0)` from verification.py.
The `print` calls and the machine-precision advisory
(`min(residuals) < 1E-15` emits a warning) are logging side effects with
no influence on the returned value and are not modelled.  A raised
`ValueError` is `Except.error`. -/
def taylor_test {V : Type} [Inhabited V] (ops : OverloadedOps V) (log : ℚ → ℚ)
    (J : ReducedFunctional V) (m h : ControlArg V) (dJdm : Option ℚ) (Hm : ℚ) :
    Except String ℚ :=
  if J.controls.length > 1 && !(m.isList) then
    Except.error ("J depends on " ++ toString J.controls.length ++
      " controls but m is not a list or tuple.")
  else if J.controls.length > 1 && !(h.isList) then
    Except.error ("J depends on " ++ toString J.controls.length ++
      " controls but h is not a list or tuple.")
  else
    let hs := h.enlist
    let ms := m.enlist
    let Jm := J.eval m
    let dJdmVal : ℚ :=
      match dJdm with
      | some d => d
      | none => ((hs.zip J.derivative.enlist).map (fun p => ops.ad_dot p.1 p.2)).sum
    let perturbe : ℚ → ControlArg V := fun eps =>
      delistAs m (List.zipWith (fun mi hi => ops.ad_add mi (ops.ad_mul hi eps)) ms hs)
    let epsilons := (List.range 4).map (fun i => (0.01 : ℚ) / 2 ^ i)
    let residuals := epsilons.map (fun eps =>
      |J.eval (perturbe eps) - Jm - eps * dJdmVal - 0.5 * eps ^ 2 * Hm|)
    Except.ok (pymin (convergence_rates log residuals epsilons))

/-- Stated from the claim's wording (to be compared with `taylor_test`):
the residual `|J(m + ε·h) − J(m) − ε·dJdm − 0.5·ε²·Hm|` at step `ε`,
where `m + ε·h` perturbs each control by the `_ad_add`/`_ad_mul`
contraction. -/
def spec_residual {V : Type} [Inhabited V] (ops : OverloadedOps V)
    (J : ReducedFunctional V) (m h : ControlArg V) (d Hm eps : ℚ) : ℚ :=
  |J.eval (delistAs m (List.zipWith (fun mi hi => ops.ad_add mi (ops.ad_mul hi eps))
      m.enlist h.enlist)) - J.eval m - eps * d - 0.5 * eps ^ 2 * Hm|

/-- Stated from the claim's wording: when no derivative is supplied it is
computed as the sum over controls of the inner-product contraction
`h_i._ad_dot(d_i)` of the direction with `J.derivative()`. -/
def spec_default_dJdm {V : Type} (ops : OverloadedOps V)
    (J : ReducedFunctional V) (h : ControlArg V) : ℚ :=
  ((h.enlist.zip J.derivative.enlist).map (fun p => ops.ad_dot p.1 p.2)).sum

/-! ## fenics_adjoint/solving.py: data model -/

/-- The runtime kind of a dependency coefficient, as discriminated by the
`isinstance` dispatch in solving.py: `backend.Function`,
`backend.Constant`, `compat.ExpressionType`, `backend.DirichletBC`,
`compat.MeshType`. -/
inductive CoeffKind where
  | function
  | constant
  | expression
  | dirichletBC
  | mesh
deriving DecidableEq

/-- A backend coefficient object (function, constant, expression,
boundary condition or mesh), with an identity and an associated
function-space id. -/
structure Coeff where
  kind : CoeffKind
  id : Nat
  fs : Nat
deriving DecidableEq

/-- A residual side as passed to `GenericSolveBlock.__init__`: either a
genuine `ufl.Form` or the integer `0` right-hand side of a nonlinear
residual `F == 0`.  A form records its coefficients, its mesh
(`lhs.ufl_domain().ufl_cargo()`), and — as semantic annotation read only
by the spec-side predicate `spec_expression_linear_in_unknown`, never by
the code model — whether the expression is linear in the unknown. -/
inductive UflValue where
  | intZero
  | form (coeffs : List Coeff) (linearInUnknown : Bool) (mesh : Coeff)
deriving DecidableEq

/-- `isinstance(x, ufl.Form)`. -/
def UflValue.isForm : UflValue → Bool
  | .intZero => false
  | .form _ _ _ => true

/-- `x.coefficients()` (empty for the non-form integer `0`, which in
Python would not support the call). -/
def UflValue.coefficients : UflValue → List Coeff
  | .intZero => []
  | .form cs _ _ => cs

/-- `x.ufl_domain().ufl_cargo()` — the mesh the form is defined on. -/
def UflValue.meshOf : UflValue → Coeff
  | .intZero => ⟨CoeffKind.mesh, 0, 0⟩
  | .form _ _ m => m

/-- Stated from the spec's wording, for comparison with the constructor
logic: a residual side is "expression-linear in the unknown" when the
expression's dependence on the unknown has degree at most one; the
integer `0` side of `F == 0` is trivially linear. -/
def spec_expression_linear_in_unknown : UflValue → Bool
  | .intZero => true
  | .form _ lin _ => lin

/-- Free term algebra over the backend/UFL capabilities used by
solving.py.  Each constructor records one external symbolic or algebraic
operation; lists of boundary conditions passed to a capability are
encoded with `listNil`/`listCons`. -/
inductive Term where
  /-- a Python `None` reference passed where a value is expected -/
  | pyNone
  /-- the Python integer `0` -/
  | zeroInt
  /-- a coefficient used as a value -/
  | coeffT (c : Coeff)
  /-- a residual side (`self.lhs` / `self.rhs`) used as a form -/
  | ufl (v : UflValue)
  /-- the fresh `compat.create_function(V)` placeholder of `_create_F_form` -/
  | tmpFunction (fs : Nat)
  /-- `backend.Function(V)` / `compat.create_function(V)` -/
  | createFunction (fs : Nat)
  /-- `backend.TrialFunction(V)` -/
  | trialFunction (fs : Nat)
  /-- `backend.TestFunction(V)` -/
  | testFunction (fs : Nat)
  /-- `backend.SpatialCoordinate(mesh)` -/
  | spatialCoordinate (c : Coeff)
  /-- `backend.derivative(f, wrt, direction)` -/
  | derivativeD (f wrt dir : Term)
  /-- `backend.derivative(f, wrt)` (no direction argument) -/
  | derivativeN (f wrt : Term)
  /-- `backend.adjoint(f)` -/
  | adjointT (f : Term)
  /-- `backend.action(f, v)` -/
  | actionT (f v : Term)
  /-- unary minus on a form -/
  | neg (f : Term)
  /-- `+` on forms / vectors -/
  | add (a b : Term)
  /-- `-` on forms / vectors -/
  | sub (a b : Term)
  /-- `*` (matrix times function, `dFdm * adj_sol`) -/
  | mulT (a b : Term)
  /-- `ufl.algorithms.expand_derivatives(f)` -/
  | expand (f : Term)
  /-- `compat.assemble_adjoint_value(f)` without boundary conditions -/
  | assembleAV (f : Term)
  /-- `compat.assemble_adjoint_value(f, bcs=bcs)` -/
  | assembleAVbcs (f : Term) (bcs : Term)
  /-- `ufl.replace(f, {k: v})` (one key of the replace map) -/
  | replaced (f k v : Term)
  /-- the value solved for by `compat.linalg_solve(A, x.vector(), b)` /
  `backend.solve(A, x.vector(), b)` -/
  | linalgSolve (A b : Term)
  /-- `compat.function_from_vector(V, v)` -/
  | functionFromVector (fs : Nat) (v : Term)
  /-- `extract_subfunction(v, V)` -/
  | extractSubfunction (v : Term) (fs : Nat)
  /-- `compat.create_bc(bc, homogenize=True)` -/
  | bcHomog (c : Coeff)
  /-- `compat.create_bc(bc, value=v)` -/
  | bcValue (c : Coeff) (v : Term)
  /-- the vector resulting from `bc.apply(v)` (mutation made explicit) -/
  | applyBC (bc v : Term)
  /-- `f.arguments()[0]` -/
  | argumentsHead (f : Term)
  /-- `backend.Constant(numpy.zeros(v.ufl_shape))` -/
  | zeroConstant (v : Term)
  /-- `backend.inner(a, b) * backend.dx` -/
  | innerDx (a b : Term)
  /-- empty bc list argument -/
  | listNil
  /-- bc list argument cell -/
  | listCons (hd tl : Term)
deriving DecidableEq

/-- Encode a Lean list of terms as a `Term`-level list argument. -/
def termOfList (l : List Term) : Term :=
  l.foldr Term.listCons Term.listNil

/-- A possibly-`None` value passed on as an object reference. -/
def optT (o : Option Term) : Term :=
  o.getD Term.pyNone

/-- A block variable, as the solve block sees it: the live object
(`output`), the checkpointed snapshot (`saved_output`) and the
tangent-linear slot (`tlm_value`). -/
structure BlockVariable where
  output : Coeff
  saved_output : Coeff
  tlm_value : Option Term
deriving DecidableEq

def defaultBlockVariable : BlockVariable :=
  ⟨⟨CoeffKind.function, 0, 0⟩, ⟨CoeffKind.function, 0, 0⟩, none⟩

/-- The semantic queries on backend expressions that solving.py performs
(`len(form.integrals()) > 0`; `form.empty()` is its negation): an
external capability of the symbolic backend. -/
structure SymBackend where
  hasIntegrals : Term → Bool

/-- State of a `GenericSolveBlock`: residual sides, unknown, boundary
conditions, the `linear` flag, the cached adjoint solution, the
dependency block variables (in registration order) and the output block
variables.  The optional `adj_cb`/`adj_bdy_cb`/`adj2_cb`/`adj2_bdy_cb`
callbacks only observe values already returned here and are not
modelled.  Solver argument bookkeeping (`forward_args`, `adj_args`, ...)
is opaque to every property below and is elided. -/
structure GenericSolveBlock where
  lhs : UflValue
  rhs : UflValue
  func : Coeff
  bcs : List Coeff
  linear : Bool
  adj_sol : Option Term
  deps : List BlockVariable
  outputs : List BlockVariable
deriving DecidableEq

/-- `self.function_space = self.func.function_space()`. -/
def GenericSolveBlock.function_space (b : GenericSolveBlock) : Nat :=
  b.func.fs

/-- `self.get_outputs()[0]`. -/
def GenericSolveBlock.getOutput0 (b : GenericSolveBlock) : BlockVariable :=
  b.outputs.headD defaultBlockVariable

/-- `Block.add_dependency(c, no_duplicates=True)`: append a fresh block
variable for `c` unless one with the same coefficient is present. -/
def addDependencyNoDup (deps : List BlockVariable) (c : Coeff) : List BlockVariable :=
  if c ∈ deps.map (fun bv => bv.output) then deps else deps ++ [⟨c, c, none⟩]

/-- `GenericSolveBlock.__init__(lhs, rhs, func, bcs, ...)`: sets
`adj_sol = None`, sets `linear` iff both sides are `ufl.Form` instances,
and registers dependencies — the rhs coefficients (linear case only),
the lhs coefficients and the boundary conditions with deduplication,
then the mesh unconditionally. -/
def GenericSolveBlock.init (lhs rhs : UflValue) (func : Coeff)
    (bcs : List Coeff) : GenericSolveBlock :=
  let linear := lhs.isForm && rhs.isForm
  let deps0 : List BlockVariable := []
  let deps1 := if linear then rhs.coefficients.foldl addDependencyNoDup deps0 else deps0
  let deps2 := lhs.coefficients.foldl addDependencyNoDup deps1
  let deps3 := bcs.foldl addDependencyNoDup deps2
  let mesh := lhs.meshOf
  let deps4 := deps3 ++ [⟨mesh, mesh, none⟩]
  ⟨lhs, rhs, func, bcs, linear, none, deps4, []⟩

/-- `block.add_output(block_variable)`. -/
def GenericSolveBlock.add_output (b : GenericSolveBlock) (bv : BlockVariable) :
    GenericSolveBlock :=
  ⟨b.lhs, b.rhs, b.func, b.bcs, b.linear, b.adj_sol, b.deps, b.outputs ++ [bv]⟩

/-- `c._ad_function_space(mesh)`: the function space associated to a
constant/expression/mesh coefficient, modelled by its space id (the mesh
argument is subsumed by the id). -/
def adFunctionSpace (c : Coeff) : Nat :=
  c.fs

/-- `GenericSolveBlock._homogenize_bcs()`: homogenize every
`DirichletBC`, pass any other entry through. -/
def GenericSolveBlock.homogenize_bcs (b : GenericSolveBlock) : List Term :=
  b.bcs.map (fun bc =>
    if bc.kind = CoeffKind.dirichletBC then Term.bcHomog bc else Term.coeffT bc)

/-- `GenericSolveBlock._should_compute_boundary_adjoint`: true when some
relevant dependency is a `DirichletBC`. -/
def shouldComputeBoundaryAdjoint
    (relevant_dependencies : List (Nat × BlockVariable)) : Bool :=
  relevant_dependencies.any (fun p => p.2.output.kind == CoeffKind.dirichletBC)

/-- `GenericSolveBlock._create_F_form()`: gather lhs and rhs into one
residual form — `action(lhs, tmp_u) - rhs` in the linear case, `lhs`
otherwise — then replace every dependency coefficient occurring in the
form by its checkpoint, and the unknown placeholder by the output's
checkpoint (a dict update, so an existing entry for the placeholder is
overwritten). -/
def createFForm (b : GenericSolveBlock) : Term :=
  let tmp_u : Term := if b.linear then Term.tmpFunction b.function_space
    else Term.coeffT b.func
  let F_form : Term := if b.linear then
      Term.sub (Term.actionT (Term.ufl b.lhs) tmp_u) (Term.ufl b.rhs)
    else Term.ufl b.lhs
  let fcoeffs : List Coeff := if b.linear then
      b.lhs.coefficients ++ b.rhs.coefficients
    else b.lhs.coefficients
  let pairs := (b.deps.filter (fun bv => bv.output ∈ fcoeffs)).map
    (fun bv => (Term.coeffT bv.output, Term.coeffT bv.saved_output))
  let pairs2 := (pairs.filter (fun kv => kv.1 ≠ tmp_u)) ++
    [(tmp_u, Term.coeffT (b.getOutput0).saved_output)]
  pairs2.foldl (fun acc kv => Term.replaced acc kv.1 kv.2) F_form

/-! ## fenics_adjoint/solving.py: adjoint pass -/

/-- `GenericSolveBlock._assemble_and_solve_adj_eq(dFdu_adj_form, dJdu,
compute_bdy)`: homogenize the boundary conditions, assemble the
transposed Jacobian with them, apply them to the seed (`dJdu.copy()` and
the in-place `bc.apply(dJdu)` are made explicit: the solve uses the
bc-applied seed, the boundary component uses the original), solve, and
when `compute_bdy` also form the boundary adjoint solution
`dJdu_copy - assemble(action(dFdu_adj_form, adj_sol))`. -/
def GenericSolveBlock.assemble_and_solve_adj_eq (b : GenericSolveBlock)
    (dFdu_adj_form dJdu : Term) (compute_bdy : Bool) : Term × Option Term :=
  let dJdu_copy := dJdu
  let bcs := b.homogenize_bcs
  let dFdu := Term.assembleAVbcs dFdu_adj_form (termOfList bcs)
  let dJdu1 := bcs.foldl (fun v bc => Term.applyBC bc v) dJdu
  let adj_sol := Term.linalgSolve dFdu dJdu1
  let adj_sol_bdy : Option Term :=
    if compute_bdy then
      some (Term.functionFromVector b.function_space
        (Term.sub dJdu_copy (Term.assembleAV (Term.actionT dFdu_adj_form adj_sol))))
    else none
  (adj_sol, adj_sol_bdy)

/-- The dict returned by `prepare_evaluate_adj`. -/
structure PreparedAdj where
  form : Term
  adj_sol : Term
  adj_sol_bdy : Option Term
deriving DecidableEq

/-- `GenericSolveBlock.prepare_evaluate_adj(inputs, adj_inputs,
relevant_dependencies)`: build the residual form and the transposed
Jacobian, solve the adjoint equation (with the boundary component
exactly when some relevant dependency is a `DirichletBC`), cache the
adjoint solution on the block (`self.adj_sol = adj_sol`, returned here
as the updated block). -/
def GenericSolveBlock.prepare_evaluate_adj (b : GenericSolveBlock)
    (adj_inputs : List Term) (relevant_dependencies : List (Nat × BlockVariable)) :
    GenericSolveBlock × PreparedAdj :=
  let fwd_block_variable := b.getOutput0
  let u := fwd_block_variable.output
  let dJdu := adj_inputs.headD Term.pyNone
  let F_form := createFForm b
  let dFdu := Term.derivativeD F_form (Term.coeffT fwd_block_variable.saved_output)
    (Term.trialFunction u.fs)
  let dFdu_form := Term.adjointT dFdu
  let compute_bdy := shouldComputeBoundaryAdjoint relevant_dependencies
  let res := b.assemble_and_solve_adj_eq dFdu_form dJdu compute_bdy
  (⟨b.lhs, b.rhs, b.func, b.bcs, b.linear, some res.1, b.deps, b.outputs⟩,
   ⟨F_form, res.1, res.2⟩)

/-- The value returned by `evaluate_adj_component` /
`evaluate_hessian_component` (besides Python `None`): a plain assembled
value, the singleton list `[tmp_bc]` holding one boundary condition, or
the `[[value, space]]` pair returned for expression dependencies. -/
inductive AdjValue where
  | val (t : Term)
  | bcListOne (bc : Term)
  | exprList (t : Term) (fs : Nat)
deriving DecidableEq

/-- `GenericSolveBlock.evaluate_adj_component(inputs, adj_inputs,
block_variable, idx, prepared)`: `None` for the unknown of a nonlinear
residual, the restricted boundary condition for a `DirichletBC`
dependency, the shape derivative for a mesh dependency, and the
assembled `adjoint(-dF/dm) * adj_sol` otherwise. -/
def GenericSolveBlock.evaluate_adj_component (b : GenericSolveBlock)
    (block_variable : BlockVariable) (prepared : PreparedAdj) : Option AdjValue :=
  if b.linear = false ∧ b.func = block_variable.output then none
  else
    let F_form := prepared.form
    let adj_sol := prepared.adj_sol
    let adj_sol_bdy := prepared.adj_sol_bdy
    let c := block_variable.output
    let c_rep := block_variable.saved_output
    match c.kind with
    | CoeffKind.dirichletBC =>
        some (AdjValue.bcListOne (Term.bcValue c
          (Term.extractSubfunction (optT adj_sol_bdy) c.fs)))
    | CoeffKind.mesh =>
        let F_form_tmp := Term.actionT F_form adj_sol
        let X := Term.spatialCoordinate c_rep
        let dFdm := Term.derivativeD (Term.neg F_form_tmp) X
          (Term.testFunction (adFunctionSpace c))
        some (AdjValue.val (Term.assembleAV dFdm))
    | _ =>
        let c_fs := adFunctionSpace c
        let trial_function : Term :=
          if c.kind = CoeffKind.function then Term.trialFunction c.fs
          else Term.trialFunction c_fs
        let dFdm0 := Term.neg (Term.derivativeD F_form (Term.coeffT c_rep) trial_function)
        let dFdm1 := Term.adjointT dFdm0
        let dFdm2 := Term.mulT dFdm1 adj_sol
        let dFdm3 := Term.assembleAV dFdm2
        if c.kind = CoeffKind.expression then some (AdjValue.exprList dFdm3 c_fs)
        else some (AdjValue.val dFdm3)

/-! ## fenics_adjoint/solving.py: tangent-linear pass -/

/-- The dict returned by `prepare_evaluate_tlm`. -/
structure PreparedTlm where
  form : Term
  dFdu : Term
deriving DecidableEq

/-- `GenericSolveBlock.prepare_evaluate_tlm`. -/
def GenericSolveBlock.prepare_evaluate_tlm (b : GenericSolveBlock) : PreparedTlm :=
  let fwd_block_variable := b.getOutput0
  let u := fwd_block_variable.output
  let F_form := createFForm b
  let dFdu := Term.derivativeD F_form (Term.coeffT fwd_block_variable.saved_output)
    (Term.trialFunction u.fs)
  ⟨F_form, dFdu⟩

/-- The right-hand-side accumulator of `evaluate_tlm_component` /
`evaluate_hessian_component`: it starts as the Python number `0` and
becomes a form once something is added. -/
inductive FormAcc where
  | zero
  | acc (t : Term)
deriving DecidableEq

/-- `+=` on the accumulator. -/
def FormAcc.plus : FormAcc → Term → FormAcc
  | .zero, t => .acc t
  | .acc s, t => .acc (Term.add s t)

/-- `acc + t` as a term (Python `0 + form` is `form`). -/
def FormAcc.toSum : FormAcc → Term → Term
  | .zero, t => t
  | .acc s, t => Term.add s t

/-- One iteration of the dependency loop of `evaluate_tlm_component`:
a `DirichletBC` dependency contributes its tangent value (or its
homogenization when it has none) to the bc list; a mesh dependency is
differentiated with respect to the spatial coordinate; a dependency
without tangent value, or equal to the unknown of a nonlinear residual,
is skipped; every other dependency adds `derivative(-F, c_rep, tlm)`. -/
def tlmStep (b : GenericSolveBlock) (F_form : Term)
    (st : List Term × FormAcc) (bv : BlockVariable) : List Term × FormAcc :=
  let bcs := st.1
  let dFdm := st.2
  let tlm_value := bv.tlm_value
  let c := bv.output
  let c_rep := bv.saved_output
  if c.kind = CoeffKind.dirichletBC then
    (bcs ++ [match tlm_value with
      | none => Term.bcHomog c
      | some v => v], dFdm)
  else
    let wrt : Term := if c.kind = CoeffKind.mesh then Term.spatialCoordinate c
      else Term.coeffT c_rep
    match tlm_value with
    | none => (bcs, dFdm)
    | some tv =>
        if c = b.func ∧ b.linear = false then (bcs, dFdm)
        else (bcs, dFdm.plus (Term.derivativeD (Term.neg F_form) wrt tv))

/-- `GenericSolveBlock._assembled_solve(lhs, rhs, func, bcs)`: apply the
boundary conditions to the right-hand side and solve; the returned value
is the solution the backend writes into `func`'s vector (the storage
function itself is the `dudm` argument). -/
def assembledSolve (lhs rhs dudm : Term) (bcs : List Term) : Term :=
  let rhs1 := bcs.foldl (fun v bc => Term.applyBC bc v) rhs
  Term.linalgSolve lhs rhs1

/-- `GenericSolveBlock.evaluate_tlm_component(inputs, tlm_inputs,
block_variable, idx, prepared)` (this block has a single output, so
`idx = 0`): accumulate the tangent right-hand side over all
dependencies; when no dependency contributed (the accumulator is still
the number `0`) build the explicit zero form
`inner(Constant(zeros(v.ufl_shape)), v)*dx` on the output's test
function; then assemble and solve the tangent-linear system
(`_assemble_and_solve_tlm_eq` delegates to `_assembled_solve`). -/
def GenericSolveBlock.evaluate_tlm_component (b : GenericSolveBlock)
    (prepared : PreparedTlm) : Term :=
  let F_form := prepared.form
  let dFdu := prepared.dFdu
  let V := (b.getOutput0).output.fs
  let st := b.deps.foldl (tlmStep b F_form) ([], FormAcc.zero)
  let bcs := st.1
  let dFdm0 : Term :=
    match st.2 with
    | FormAcc.zero =>
        Term.innerDx (Term.zeroConstant (Term.argumentsHead dFdu))
          (Term.argumentsHead dFdu)
    | FormAcc.acc t => t
  let dFdm1 := Term.expand dFdm0
  let dFdm2 := Term.assembleAV dFdm1
  let dudm := Term.createFunction V
  assembledSolve (Term.assembleAVbcs dFdu (termOfList bcs)) dFdm2 dudm bcs

/-! ## fenics_adjoint/solving.py: second-order adjoint pass -/

/-- `GenericSolveBlock._assemble_soa_eq_rhs(dFdu_form, adj_sol,
hessian_input, d2Fdu2)`: start from the Hessian seed, subtract the
assembled sum of the transposed second derivative acted with the first
adjoint and the cross terms `d2F/dudm * tlm` of every tangent-carrying
dependency (skipping the unknown of a nonlinear residual and boundary
conditions); integral-emptiness checks are the backend's. -/
def GenericSolveBlock.assemble_soa_eq_rhs (S : SymBackend) (b : GenericSolveBlock)
    (dFdu_form adj_sol hessian_input d2Fdu2 : Term) : Term :=
  let b0 := hessian_input
  let b_form0 : Term :=
    if S.hasIntegrals d2Fdu2 then Term.actionT (Term.adjointT d2Fdu2) adj_sol
    else d2Fdu2
  let b_form := b.deps.foldl (fun bf bo =>
    let c := bo.output
    let c_rep := bo.saved_output
    -- `if (c == self.func and not self.linear) or tlm_input is None: continue`
    match bo.tlm_value with
    | none => bf
    | some tlm_input =>
        if c = b.func ∧ b.linear = false then bf
        else if c.kind = CoeffKind.mesh then
          let X := Term.spatialCoordinate c
          let dFdu_adj := Term.actionT (Term.adjointT dFdu_form) adj_sol
          let d2Fdudm := Term.expand (Term.derivativeD dFdu_adj X tlm_input)
          if S.hasIntegrals d2Fdudm then Term.add bf d2Fdudm else bf
        else if c.kind = CoeffKind.dirichletBC then bf
        else
          let dFdu_adj := Term.actionT (Term.adjointT dFdu_form) adj_sol
          Term.add bf (Term.derivativeD dFdu_adj (Term.coeffT c_rep) tlm_input))
    b_form0
  let b_form1 := Term.expand b_form
  if S.hasIntegrals b_form1 then Term.sub b0 (Term.assembleAV b_form1) else b0

/-- `GenericSolveBlock._assemble_and_solve_soa_eq`: build the
second-order right-hand side, transpose the Jacobian form again and
solve by the first-order routine (the `adj2_cb`/`adj2_bdy_cb` callbacks
observe the returned values and are not modelled). -/
def GenericSolveBlock.assemble_and_solve_soa_eq (S : SymBackend)
    (b : GenericSolveBlock) (dFdu_form adj_sol hessian_input d2Fdu2 : Term)
    (compute_bdy : Bool) : Term × Option Term :=
  let rhs := b.assemble_soa_eq_rhs S dFdu_form adj_sol hessian_input d2Fdu2
  let dFdu_form1 := Term.adjointT dFdu_form
  b.assemble_and_solve_adj_eq dFdu_form1 rhs compute_bdy

/-- The dict returned by `prepare_evaluate_hessian`. -/
structure PreparedHessian where
  adj_sol2 : Term
  adj_sol2_bdy : Option Term
  form : Term
  adj_sol : Term
deriving DecidableEq

/-- `GenericSolveBlock.prepare_evaluate_hessian(inputs, hessian_inputs,
adj_inputs, relevant_dependencies)`: an absent Hessian seed or an absent
tangent-linear value on the output returns `None` (`.ok none`); a
missing cached adjoint solution raises
`RuntimeError("Hessian computation was run before adjoint.")`
(`.error`); otherwise solve the second-order adjoint equation. -/
def GenericSolveBlock.prepare_evaluate_hessian (S : SymBackend)
    (b : GenericSolveBlock) (inputs : List Term)
    (hessian_inputs : List (Option Term)) (adj_inputs : List Term)
    (relevant_dependencies : List (Nat × BlockVariable)) :
    Except String (Option PreparedHessian) :=
  let fwd_block_variable := b.getOutput0
  let hessian_input := hessian_inputs.headD none
  let tlm_output := fwd_block_variable.tlm_value
  match hessian_input with
  | none => Except.ok none
  | some hi =>
    match tlm_output with
    | none => Except.ok none
    | some tlm =>
      let F_form := createFForm b
      let dFdu_form := Term.derivativeN F_form
        (Term.coeffT fwd_block_variable.saved_output)
      let d2Fdu2 := Term.expand (Term.derivativeD dFdu_form
        (Term.coeffT fwd_block_variable.saved_output) tlm)
      match b.adj_sol with
      | none => Except.error "Hessian computation was run before adjoint."
      | some adj_sol =>
        let bdy := shouldComputeBoundaryAdjoint relevant_dependencies
        let res := b.assemble_and_solve_soa_eq S dFdu_form adj_sol hi d2Fdu2 bdy
        Except.ok (some ⟨res.1, res.2, F_form, adj_sol⟩)

/-- `GenericSolveBlock.evaluate_hessian_component(inputs, hessian_inputs,
adj_inputs, block_variable, idx, relevant_dependencies, prepared)`:
`None` for the unknown of a nonlinear residual; the restricted boundary
condition built from the second-order boundary adjoint for a
`DirichletBC` dependency; otherwise the negated assembly of
`d2Fdm2 + dFdm_adj2 + d2Fdudm` including the pairwise cross terms over
every other tangent-carrying relevant dependency. -/
def GenericSolveBlock.evaluate_hessian_component (S : SymBackend)
    (b : GenericSolveBlock) (block_variable : BlockVariable)
    (relevant_dependencies : List (Nat × BlockVariable))
    (prepared : PreparedHessian) : Option AdjValue :=
  let c := block_variable.output
  if c = b.func ∧ b.linear = false then none
  else
    let adj_sol2 := prepared.adj_sol2
    let adj_sol2_bdy := prepared.adj_sol2_bdy
    let F_form := prepared.form
    let adj_sol := prepared.adj_sol
    let fwd_block_variable := b.getOutput0
    let tlm_output := optT fwd_block_variable.tlm_value
    let c_rep := block_variable.saved_output
    if c.kind = CoeffKind.dirichletBC then
      some (AdjValue.bcListOne (Term.bcValue c
        (Term.extractSubfunction (optT adj_sol2_bdy) c.fs)))
    else
      let W : Nat :=
        if c_rep.kind = CoeffKind.constant then adFunctionSpace c
        else if c.kind = CoeffKind.expression then adFunctionSpace c
        else if c.kind = CoeffKind.mesh then adFunctionSpace c
        else c.fs
      let X := Term.spatialCoordinate c
      let dc := Term.testFunction W
      let form_adj := Term.actionT F_form adj_sol
      let form_adj2 := Term.actionT F_form adj_sol2
      let dFdm_adj := if c.kind = CoeffKind.mesh then Term.derivativeD form_adj X dc
        else Term.derivativeD form_adj (Term.coeffT c_rep) dc
      let dFdm_adj2 := if c.kind = CoeffKind.mesh then Term.derivativeD form_adj2 X dc
        else Term.derivativeD form_adj2 (Term.coeffT c_rep) dc
      let d2Fdudm := Term.expand (Term.derivativeD dFdm_adj
        (Term.coeffT fwd_block_variable.saved_output) tlm_output)
      let d2Fdm2 := relevant_dependencies.foldl (fun acc p =>
        let c2 := p.2.output
        let c2_rep := p.2.saved_output
        if c2.kind = CoeffKind.dirichletBC then acc
        else
          match p.2.tlm_value with
          | none => acc
          | some tlm_input =>
              if c2 = b.func ∧ b.linear = false then acc
              else if c2_rep.kind = CoeffKind.mesh then
                acc.plus (Term.expand (Term.derivativeD dFdm_adj
                  (Term.spatialCoordinate c2_rep) tlm_input))
              else
                acc.plus (Term.expand (Term.derivativeD dFdm_adj
                  (Term.coeffT c2_rep) tlm_input)))
        FormAcc.zero
      let hessian_form := Term.expand (Term.add (d2Fdm2.toSum dFdm_adj2) d2Fdudm)
      let hessian_output : Term :=
        if S.hasIntegrals hessian_form then
          Term.sub Term.zeroInt (Term.assembleAV hessian_form)
        else Term.zeroInt
      if c.kind = CoeffKind.expression then some (AdjValue.exprList hessian_output W)
      else some (AdjValue.val hessian_output)

/-! ## fenics_adjoint/solving.py: the overloaded `solve` entry point -/

/-- A solve block as recorded on the tape by the overloaded `solve`:
which specialization was chosen (`SolveVarFormBlock` when `args[0]` is a
`ufl.equation.Equation`, `SolveLinearSystemBlock` otherwise), the
captured arguments (opaque id), and the registered output block
variables. -/
structure TapeBlock where
  isVarForm : Bool
  args : Nat
  outputs : List Nat
deriving DecidableEq

/-- The overloaded `solve(*args, **kwargs)` wrapper: when annotation is
enabled, create the solve block and append it to the working tape; call
the backend solve primitive exactly once (under `stop_annotating`) with
the original arguments; when annotation is enabled, create one output
block variable on the solution argument and register it on the block.
Returns the new tape, the list of backend `solve` invocations made (in
order, by argument id) and the number of block variables created. -/
def solve_overloaded (annotate : Bool) (argsIsEquation : Bool) (args : Nat)
    (tape : List TapeBlock) (freshBV : Nat) : List TapeBlock × List Nat × Nat :=
  if annotate then
    (tape ++ [⟨argsIsEquation, args, [freshBV]⟩], [args], 1)
  else
    (tape, [args], 0)

/-! ## Claim theorems -/

/-- C1: for every pair of equal-length sequences of residuals and step
sizes of length 4, `convergence_rates` returns a sequence of exactly 3
values whose i-th entry is
`log(E_values[i]/E_values[i-1]) / log(eps_values[i]/eps_values[i-1])`
for i = 1, 2, 3. -/
theorem convergence_rates_of_four (log : ℚ → ℚ) (e0 e1 e2 e3 s0 s1 s2 s3 : ℚ) :
    convergence_rates log [e0, e1, e2, e3] [s0, s1, s2, s3] =
      [log (e1 / e0) / log (s1 / s0), log (e2 / e1) / log (s2 / s1),
       log (e3 / e2) / log (s3 / s2)] := by
  rfl

/-- C2: whenever the control-arity validation passes, `taylor_test`
evaluates `J` at exactly the four perturbed points `m + ε·h` for
`ε ∈ [0.01, 0.005, 0.0025, 0.00125]` (in that order), forms for each
`ε` the residual `|J(m+ε·h) − J(m) − ε·dJdm − 0.5·ε²·Hm|`, and returns
the minimum of the three pairwise convergence rates of these residuals;
when `dJdm` is not supplied it is computed as the sum over controls of
`h_i._ad_dot(d_i)` against `J.derivative()`. -/
theorem taylor_test_formula {V : Type} [Inhabited V] (ops : OverloadedOps V)
    (log : ℚ → ℚ) (J : ReducedFunctional V) (m h : ControlArg V)
    (dJdm : Option ℚ) (Hm : ℚ)
    (hm : (J.controls.length > 1 && !(m.isList)) = false)
    (hh : (J.controls.length > 1 && !(h.isList)) = false) :
    taylor_test ops log J m h dJdm Hm =
      Except.ok (pymin (convergence_rates log
        (([0.01, 0.005, 0.0025, 0.00125] : List ℚ).map
          (spec_residual ops J m h (dJdm.getD (spec_default_dJdm ops J h)) Hm))
        [0.01, 0.005, 0.0025, 0.00125])) := by
  have h1 : (0.01 : ℚ) / 2 = 0.005 := by norm_num
  have h2 : (0.01 : ℚ) / 2 ^ 2 = 0.0025 := by norm_num
  have h3 : (0.01 : ℚ) / 2 ^ 3 = 0.00125 := by norm_num
  cases dJdm with
  | some d =>
      simp [taylor_test, hm, hh, spec_residual, List.map, List.range_succ,
        h1, h2, h3]
  | none =>
      simp [taylor_test, hm, hh, spec_residual, spec_default_dJdm, List.map,
        List.range_succ, h1, h2, h3]

/-- C2 witness: a concrete single-control functional passes validation
and `taylor_test` returns the formula value. -/
theorem taylor_test_formula_witness :
    ((([0] : List Nat).length > 1 && !((ControlArg.single (0 : ℚ)).isList)) = false) ∧
    taylor_test ⟨fun a b => a + b, fun a r => a * r, fun a b => a * b⟩ (fun x => x)
        ⟨[0], fun _ => 0, ControlArg.single (0 : ℚ)⟩ (ControlArg.single (0 : ℚ))
        (ControlArg.single (0 : ℚ)) (some 1) 0 =
      Except.ok (pymin (convergence_rates (fun x => x)
        (([0.01, 0.005, 0.0025, 0.00125] : List ℚ).map
          (spec_residual ⟨fun a b => a + b, fun a r => a * r, fun a b => a * b⟩
            ⟨[0], fun _ => 0, ControlArg.single (0 : ℚ)⟩ (ControlArg.single (0 : ℚ))
            (ControlArg.single (0 : ℚ))
            ((some (1 : ℚ)).getD (spec_default_dJdm
              ⟨fun a b => a + b, fun a r => a * r, fun a b => a * b⟩
              ⟨[0], fun _ => 0, ControlArg.single (0 : ℚ)⟩ (ControlArg.single (0 : ℚ)))) 0))
        [0.01, 0.005, 0.0025, 0.00125])) :=
  ⟨by decide,
   taylor_test_formula ⟨fun a b => a + b, fun a r => a * r, fun a b => a * b⟩ (fun x => x)
     ⟨[0], fun _ => 0, ControlArg.single (0 : ℚ)⟩ (ControlArg.single (0 : ℚ))
     (ControlArg.single (0 : ℚ)) (some 1) 0 (by decide) (by decide)⟩

/-- C9: with more than one declared control, a non-list point `m` (or
direction `h`) makes `taylor_test` raise `ValueError`; with at most one
control no such validation failure occurs and a value is returned. -/
theorem taylor_test_validation {V : Type} [Inhabited V] (ops : OverloadedOps V)
    (log : ℚ → ℚ) (J : ReducedFunctional V) (m h : ControlArg V)
    (dJdm : Option ℚ) (Hm : ℚ) :
    ((J.controls.length > 1 && !(m.isList)) = true →
      taylor_test ops log J m h dJdm Hm =
        Except.error ("J depends on " ++ toString J.controls.length ++
          " controls but m is not a list or tuple.")) ∧
    ((J.controls.length > 1 && !(m.isList)) = false →
      (J.controls.length > 1 && !(h.isList)) = true →
      taylor_test ops log J m h dJdm Hm =
        Except.error ("J depends on " ++ toString J.controls.length ++
          " controls but h is not a list or tuple.")) ∧
    (J.controls.length ≤ 1 →
      (taylor_test ops log J m h dJdm Hm).toOption.isSome = true) := by
  refine ⟨fun h1 => ?_, fun h1 h2 => ?_, fun hle => ?_⟩
  · simp [taylor_test, h1]
  · simp [taylor_test, h1, h2]
  · have hgt : ¬ (J.controls.length > 1) := by omega
    simp [taylor_test, hgt, Except.toOption]

/-- C9 witness: two controls with a bare point fail on `m`, two controls
with a list point but bare direction fail on `h`, one control succeeds. -/
theorem taylor_test_validation_witness :
    (taylor_test (V := ℚ) ⟨fun a b => a + b, fun a r => a * r, fun a b => a * b⟩
        (fun x => x) ⟨[0, 1], fun _ => 0, ControlArg.single 0⟩
        (ControlArg.single 0) (ControlArg.single 0) none 0 =
      Except.error ("J depends on " ++ toString ([0, 1] : List Nat).length ++
        " controls but m is not a list or tuple.")) ∧
    (taylor_test (V := ℚ) ⟨fun a b => a + b, fun a r => a * r, fun a b => a * b⟩
        (fun x => x) ⟨[0, 1], fun _ => 0, ControlArg.single 0⟩
        (ControlArg.listArg [0, 0]) (ControlArg.single 0) none 0 =
      Except.error ("J depends on " ++ toString ([0, 1] : List Nat).length ++
        " controls but h is not a list or tuple.")) ∧
    ((taylor_test (V := ℚ) ⟨fun a b => a + b, fun a r => a * r, fun a b => a * b⟩
        (fun x => x) ⟨[0], fun _ => 0, ControlArg.single 0⟩
        (ControlArg.single 0) (ControlArg.single 0) none 0).toOption.isSome = true) :=
  ⟨(taylor_test_validation ⟨fun a b => a + b, fun a r => a * r, fun a b => a * b⟩
      (fun x => x) ⟨[0, 1], fun _ => 0, ControlArg.single 0⟩
      (ControlArg.single 0) (ControlArg.single 0) none 0).1 (by decide),
   (taylor_test_validation ⟨fun a b => a + b, fun a r => a * r, fun a b => a * b⟩
      (fun x => x) ⟨[0, 1], fun _ => 0, ControlArg.single 0⟩
      (ControlArg.listArg [0, 0]) (ControlArg.single 0) none 0).2.1 (by decide) (by decide),
   (taylor_test_validation ⟨fun a b => a + b, fun a r => a * r, fun a b => a * b⟩
      (fun x => x) ⟨[0], fun _ => 0, ControlArg.single 0⟩
      (ControlArg.single 0) (ControlArg.single 0) none 0).2.2 (by decide)⟩

/-- C10: the overloaded `solve` entry point invokes the backend solve
primitive exactly once with the original arguments regardless of
annotation; with annotation disabled the tape is unchanged and no block
variable is created; with annotation enabled exactly one solve block is
appended and exactly one output block variable is registered on it. -/
theorem solve_overloaded_frame (annotate argsIsEquation : Bool) (args : Nat)
    (tape : List TapeBlock) (freshBV : Nat) :
    (solve_overloaded annotate argsIsEquation args tape freshBV).2.1 = [args] ∧
    (solve_overloaded annotate argsIsEquation args tape freshBV).1 =
      (if annotate then tape ++ [⟨argsIsEquation, args, [freshBV]⟩] else tape) ∧
    (solve_overloaded annotate argsIsEquation args tape freshBV).2.2 =
      (if annotate then 1 else 0) := by
  cases annotate <;> simp [solve_overloaded]

/-- C3: on a freshly constructed `GenericSolveBlock` (whose cached
adjoint solution `adj_sol` is `None`), `prepare_evaluate_hessian` with a
non-`None` Hessian seed and a non-`None` tangent-linear value on the
output raises `RuntimeError("Hessian computation was run before
adjoint.")` rather than returning a result. -/
theorem prepare_hessian_before_adjoint_raises (S : SymBackend)
    (lhs rhs : UflValue) (func : Coeff) (bcs : List Coeff) (bvOut : BlockVariable)
    (t : Term) (inputs : List Term) (hessian_inputs : List (Option Term)) (hi : Term)
    (adj_inputs : List Term) (rds : List (Nat × BlockVariable))
    (htlm : bvOut.tlm_value = some t)
    (hhi : hessian_inputs.headD none = some hi) :
    ((GenericSolveBlock.init lhs rhs func bcs).add_output bvOut).prepare_evaluate_hessian
        S inputs hessian_inputs adj_inputs rds =
      Except.error "Hessian computation was run before adjoint." := by
  have hadj : ((GenericSolveBlock.init lhs rhs func bcs).add_output bvOut).adj_sol =
      none := rfl
  have hout : ((GenericSolveBlock.init lhs rhs func bcs).add_output bvOut).getOutput0 =
      bvOut := by
    simp [GenericSolveBlock.init, GenericSolveBlock.add_output,
      GenericSolveBlock.getOutput0]
  have hhi2 : hessian_inputs.head?.getD none = some hi := by
    rw [← List.headD_eq_head?]; exact hhi
  simp [GenericSolveBlock.prepare_evaluate_hessian, hhi2, hout, htlm, hadj]

/-- C3 witness: a concrete freshly constructed block with Hessian seed
and output tangent value raises the error. -/
theorem prepare_hessian_before_adjoint_raises_witness :
    ((⟨⟨CoeffKind.function, 1, 1⟩, ⟨CoeffKind.function, 1, 1⟩,
        some Term.zeroInt⟩ : BlockVariable).tlm_value = some Term.zeroInt) ∧
    (([some Term.zeroInt] : List (Option Term)).headD none = some Term.zeroInt) ∧
    ((GenericSolveBlock.init (UflValue.form [] true ⟨CoeffKind.mesh, 0, 0⟩)
        UflValue.intZero ⟨CoeffKind.function, 1, 1⟩ []).add_output
        ⟨⟨CoeffKind.function, 1, 1⟩, ⟨CoeffKind.function, 1, 1⟩,
          some Term.zeroInt⟩).prepare_evaluate_hessian
        ⟨fun _ => true⟩ [] [some Term.zeroInt] [] [] =
      Except.error "Hessian computation was run before adjoint." :=
  ⟨rfl, rfl,
   prepare_hessian_before_adjoint_raises ⟨fun _ => true⟩
     (UflValue.form [] true ⟨CoeffKind.mesh, 0, 0⟩) UflValue.intZero
     ⟨CoeffKind.function, 1, 1⟩ []
     ⟨⟨CoeffKind.function, 1, 1⟩, ⟨CoeffKind.function, 1, 1⟩, some Term.zeroInt⟩
     Term.zeroInt [] [some Term.zeroInt] Term.zeroInt [] [] rfl rfl⟩

/-- C4 counterexample: on a block whose adjoint pass has run
(`adj_sol` cached) but whose output carries no tangent-linear value,
`prepare_evaluate_hessian` with a non-`None` Hessian seed does NOT fail:
it returns `None` normally, refuting the claim that a missing output
tangent-linear value makes the second-order adjoint pass fail. -/
theorem prepare_hessian_missing_tlm_cx :
    (⟨UflValue.form [] true ⟨CoeffKind.mesh, 0, 0⟩, UflValue.intZero,
        ⟨CoeffKind.function, 1, 1⟩, [], false, some Term.zeroInt, [],
        [⟨⟨CoeffKind.function, 1, 1⟩, ⟨CoeffKind.function, 1, 1⟩, none⟩]⟩ :
      GenericSolveBlock).prepare_evaluate_hessian ⟨fun _ => true⟩
      [] [some Term.zeroInt] [] [] = Except.ok none := by
  rfl

/-- C4 (amended): `prepare_evaluate_hessian` with a non-`None` Hessian
seed but no tangent-linear value on the output returns `None` (the
second-order pass is silently skipped); it does not raise. -/
theorem prepare_hessian_missing_tlm_skips (S : SymBackend) (b : GenericSolveBlock)
    (inputs : List Term) (hessian_inputs : List (Option Term)) (hi : Term)
    (adj_inputs : List Term) (rds : List (Nat × BlockVariable))
    (htlm : (b.getOutput0).tlm_value = none)
    (hhi : hessian_inputs.headD none = some hi) :
    b.prepare_evaluate_hessian S inputs hessian_inputs adj_inputs rds =
      Except.ok none := by
  have hhi2 : hessian_inputs.head?.getD none = some hi := by
    rw [← List.headD_eq_head?]; exact hhi
  simp [GenericSolveBlock.prepare_evaluate_hessian, hhi2, htlm]

/-- C4 witness: concrete instance of the amended claim. -/
theorem prepare_hessian_missing_tlm_skips_witness :
    (((⟨UflValue.intZero, UflValue.intZero, ⟨CoeffKind.function, 0, 0⟩, [],
        false, none, [], []⟩ : GenericSolveBlock).getOutput0).tlm_value = none) ∧
    (([some Term.pyNone] : List (Option Term)).headD none = some Term.pyNone) ∧
    (⟨UflValue.intZero, UflValue.intZero, ⟨CoeffKind.function, 0, 0⟩, [],
        false, none, [], []⟩ : GenericSolveBlock).prepare_evaluate_hessian
        ⟨fun _ => false⟩ [] [some Term.pyNone] [] [] = Except.ok none :=
  ⟨rfl, rfl,
   prepare_hessian_missing_tlm_skips ⟨fun _ => false⟩
     ⟨UflValue.intZero, UflValue.intZero, ⟨CoeffKind.function, 0, 0⟩, [],
       false, none, [], []⟩ [] [some Term.pyNone] Term.pyNone [] [] rfl rfl⟩

/-- C5: on a nonlinear solve block (`linear = false`), a dependency
whose coefficient is the unknown `self.func` yields no derivative
contribution in any pass and raises no error: `evaluate_adj_component`
returns `None`, `evaluate_hessian_component` returns `None`, and the
dependency loop of `evaluate_tlm_component` leaves its accumulator
unchanged at that dependency. -/
theorem nonlinear_unknown_dependency_noop (S : SymBackend)
    (b : GenericSolveBlock) (bv : BlockVariable) (pA : PreparedAdj)
    (pH : PreparedHessian) (rds : List (Nat × BlockVariable))
    (F_form : Term) (st : List Term × FormAcc)
    (hlin : b.linear = false) (heq : bv.output = b.func)
    (hkind : b.func.kind ≠ CoeffKind.dirichletBC) :
    b.evaluate_adj_component bv pA = none ∧
    b.evaluate_hessian_component S bv rds pH = none ∧
    tlmStep b F_form st bv = st := by
  refine ⟨?_, ?_, ?_⟩
  · simp [GenericSolveBlock.evaluate_adj_component, hlin, heq]
  · simp [GenericSolveBlock.evaluate_hessian_component, hlin, heq]
  · cases htlm : bv.tlm_value <;>
      simp [tlmStep, hlin, heq, hkind, htlm]

/-- C5 witness: concrete nonlinear block and unknown-as-dependency. -/
theorem nonlinear_unknown_dependency_noop_witness :
    ((⟨UflValue.form [⟨CoeffKind.function, 1, 1⟩] false ⟨CoeffKind.mesh, 0, 0⟩,
        UflValue.intZero, ⟨CoeffKind.function, 1, 1⟩, [], false, none, [],
        []⟩ : GenericSolveBlock).linear = false) ∧
    ((⟨⟨CoeffKind.function, 1, 1⟩, ⟨CoeffKind.function, 1, 1⟩,
        some Term.zeroInt⟩ : BlockVariable).output =
      (⟨CoeffKind.function, 1, 1⟩ : Coeff)) ∧
    (⟨UflValue.form [⟨CoeffKind.function, 1, 1⟩] false ⟨CoeffKind.mesh, 0, 0⟩,
        UflValue.intZero, ⟨CoeffKind.function, 1, 1⟩, [], false, none, [],
        []⟩ : GenericSolveBlock).evaluate_adj_component
      ⟨⟨CoeffKind.function, 1, 1⟩, ⟨CoeffKind.function, 1, 1⟩, some Term.zeroInt⟩
      ⟨Term.zeroInt, Term.zeroInt, none⟩ = none ∧
    (⟨UflValue.form [⟨CoeffKind.function, 1, 1⟩] false ⟨CoeffKind.mesh, 0, 0⟩,
        UflValue.intZero, ⟨CoeffKind.function, 1, 1⟩, [], false, none, [],
        []⟩ : GenericSolveBlock).evaluate_hessian_component ⟨fun _ => true⟩
      ⟨⟨CoeffKind.function, 1, 1⟩, ⟨CoeffKind.function, 1, 1⟩, some Term.zeroInt⟩
      [] ⟨Term.zeroInt, none, Term.zeroInt, Term.zeroInt⟩ = none ∧
    tlmStep
      ⟨UflValue.form [⟨CoeffKind.function, 1, 1⟩] false ⟨CoeffKind.mesh, 0, 0⟩,
        UflValue.intZero, ⟨CoeffKind.function, 1, 1⟩, [], false, none, [], []⟩
      Term.zeroInt ([], FormAcc.zero)
      ⟨⟨CoeffKind.function, 1, 1⟩, ⟨CoeffKind.function, 1, 1⟩, some Term.zeroInt⟩ =
      ([], FormAcc.zero) :=
  ⟨rfl, rfl,
   nonlinear_unknown_dependency_noop ⟨fun _ => true⟩
     ⟨UflValue.form [⟨CoeffKind.function, 1, 1⟩] false ⟨CoeffKind.mesh, 0, 0⟩,
       UflValue.intZero, ⟨CoeffKind.function, 1, 1⟩, [], false, none, [], []⟩
     ⟨⟨CoeffKind.function, 1, 1⟩, ⟨CoeffKind.function, 1, 1⟩, some Term.zeroInt⟩
     ⟨Term.zeroInt, Term.zeroInt, none⟩
     ⟨Term.zeroInt, none, Term.zeroInt, Term.zeroInt⟩ []
     Term.zeroInt ([], FormAcc.zero) rfl rfl (by decide)⟩

/-- C6: for a `DirichletBC` dependency, `evaluate_adj_component` and
`evaluate_hessian_component` return the singleton list holding one
boundary condition whose data is the boundary (respectively second)
adjoint solution restricted to that constraint's function space, never a
full-domain derivative; the boundary adjoint solution is the unmodified
seed minus the transposed-Jacobian action on the adjoint solution, and
it is computed exactly when some relevant dependency is a
`DirichletBC`. -/
theorem dirichlet_dependency_contract (S : SymBackend) (b : GenericSolveBlock)
    (bv : BlockVariable) (pA : PreparedAdj) (pH : PreparedHessian)
    (rds : List (Nat × BlockVariable)) (adj_inputs : List Term)
    (f dJdu : Term) (cb : Bool)
    (hkind : bv.output.kind = CoeffKind.dirichletBC)
    (hne : b.func ≠ bv.output) :
    b.evaluate_adj_component bv pA =
      some (AdjValue.bcListOne (Term.bcValue bv.output
        (Term.extractSubfunction (optT pA.adj_sol_bdy) bv.output.fs))) ∧
    b.evaluate_hessian_component S bv rds pH =
      some (AdjValue.bcListOne (Term.bcValue bv.output
        (Term.extractSubfunction (optT pH.adj_sol2_bdy) bv.output.fs))) ∧
    (b.assemble_and_solve_adj_eq f dJdu cb).2 =
      (if cb then
        some (Term.functionFromVector b.function_space
          (Term.sub dJdu (Term.assembleAV (Term.actionT f
            (b.assemble_and_solve_adj_eq f dJdu cb).1))))
      else none) ∧
    ((b.prepare_evaluate_adj adj_inputs rds).2.adj_sol_bdy.isSome =
      rds.any (fun p => p.2.output.kind == CoeffKind.dirichletBC)) := by
  have hne2 : bv.output ≠ b.func := Ne.symm hne
  refine ⟨?_, ?_, ?_, ?_⟩
  · simp [GenericSolveBlock.evaluate_adj_component, hne, hkind]
  · simp [GenericSolveBlock.evaluate_hessian_component, hne2, hkind]
  · cases cb <;> simp [GenericSolveBlock.assemble_and_solve_adj_eq]
  · cases hany : rds.any (fun p => p.2.output.kind == CoeffKind.dirichletBC) <;>
      simp [GenericSolveBlock.prepare_evaluate_adj,
        GenericSolveBlock.assemble_and_solve_adj_eq,
        shouldComputeBoundaryAdjoint, hany]

/-- C6 witness: concrete block, boundary-condition dependency and
prepared states. -/
theorem dirichlet_dependency_contract_witness :
    ((⟨⟨CoeffKind.dirichletBC, 2, 2⟩, ⟨CoeffKind.dirichletBC, 2, 2⟩,
        none⟩ : BlockVariable).output.kind = CoeffKind.dirichletBC) ∧
    ((⟨CoeffKind.function, 1, 1⟩ : Coeff) ≠ ⟨CoeffKind.dirichletBC, 2, 2⟩) ∧
    (⟨UflValue.form [] true ⟨CoeffKind.mesh, 0, 0⟩, UflValue.intZero,
        ⟨CoeffKind.function, 1, 1⟩, [⟨CoeffKind.dirichletBC, 2, 2⟩], false,
        none, [], []⟩ : GenericSolveBlock).evaluate_adj_component
      ⟨⟨CoeffKind.dirichletBC, 2, 2⟩, ⟨CoeffKind.dirichletBC, 2, 2⟩, none⟩
      ⟨Term.zeroInt, Term.zeroInt, some Term.zeroInt⟩ =
      some (AdjValue.bcListOne (Term.bcValue ⟨CoeffKind.dirichletBC, 2, 2⟩
        (Term.extractSubfunction (optT (some Term.zeroInt)) 2))) ∧
    (⟨UflValue.form [] true ⟨CoeffKind.mesh, 0, 0⟩, UflValue.intZero,
        ⟨CoeffKind.function, 1, 1⟩, [⟨CoeffKind.dirichletBC, 2, 2⟩], false,
        none, [], []⟩ : GenericSolveBlock).evaluate_hessian_component
      ⟨fun _ => true⟩
      ⟨⟨CoeffKind.dirichletBC, 2, 2⟩, ⟨CoeffKind.dirichletBC, 2, 2⟩, none⟩
      [(0, ⟨⟨CoeffKind.dirichletBC, 2, 2⟩, ⟨CoeffKind.dirichletBC, 2, 2⟩, none⟩)]
      ⟨Term.zeroInt, some Term.pyNone, Term.zeroInt, Term.zeroInt⟩ =
      some (AdjValue.bcListOne (Term.bcValue ⟨CoeffKind.dirichletBC, 2, 2⟩
        (Term.extractSubfunction (optT (some Term.pyNone)) 2))) ∧
    ((⟨UflValue.form [] true ⟨CoeffKind.mesh, 0, 0⟩, UflValue.intZero,
        ⟨CoeffKind.function, 1, 1⟩, [⟨CoeffKind.dirichletBC, 2, 2⟩], false,
        none, [], []⟩ : GenericSolveBlock).assemble_and_solve_adj_eq
        Term.zeroInt Term.zeroInt true).2 =
      (if true then
        some (Term.functionFromVector
          (⟨UflValue.form [] true ⟨CoeffKind.mesh, 0, 0⟩, UflValue.intZero,
            ⟨CoeffKind.function, 1, 1⟩, [⟨CoeffKind.dirichletBC, 2, 2⟩], false,
            none, [], []⟩ : GenericSolveBlock).function_space
          (Term.sub Term.zeroInt (Term.assembleAV (Term.actionT Term.zeroInt
            ((⟨UflValue.form [] true ⟨CoeffKind.mesh, 0, 0⟩, UflValue.intZero,
              ⟨CoeffKind.function, 1, 1⟩, [⟨CoeffKind.dirichletBC, 2, 2⟩], false,
              none, [], []⟩ : GenericSolveBlock).assemble_and_solve_adj_eq
              Term.zeroInt Term.zeroInt true).1))))
      else none) ∧
    (((⟨UflValue.form [] true ⟨CoeffKind.mesh, 0, 0⟩, UflValue.intZero,
        ⟨CoeffKind.function, 1, 1⟩, [⟨CoeffKind.dirichletBC, 2, 2⟩], false,
        none, [], []⟩ : GenericSolveBlock).prepare_evaluate_adj [Term.zeroInt]
        [(0, ⟨⟨CoeffKind.dirichletBC, 2, 2⟩, ⟨CoeffKind.dirichletBC, 2, 2⟩,
          none⟩)]).2.adj_sol_bdy.isSome =
      ([(0, (⟨⟨CoeffKind.dirichletBC, 2, 2⟩, ⟨CoeffKind.dirichletBC, 2, 2⟩,
          none⟩ : BlockVariable))] : List (Nat × BlockVariable)).any
        (fun p => p.2.output.kind == CoeffKind.dirichletBC)) :=
  ⟨rfl, by decide,
   dirichlet_dependency_contract ⟨fun _ => true⟩
     ⟨UflValue.form [] true ⟨CoeffKind.mesh, 0, 0⟩, UflValue.intZero,
       ⟨CoeffKind.function, 1, 1⟩, [⟨CoeffKind.dirichletBC, 2, 2⟩], false,
       none, [], []⟩
     ⟨⟨CoeffKind.dirichletBC, 2, 2⟩, ⟨CoeffKind.dirichletBC, 2, 2⟩, none⟩
     ⟨Term.zeroInt, Term.zeroInt, some Term.zeroInt⟩
     ⟨Term.zeroInt, some Term.pyNone, Term.zeroInt, Term.zeroInt⟩
     [(0, ⟨⟨CoeffKind.dirichletBC, 2, 2⟩, ⟨CoeffKind.dirichletBC, 2, 2⟩, none⟩)]
     [Term.zeroInt] Term.zeroInt Term.zeroInt true rfl (by decide)⟩

/-- The dependency loop of `evaluate_tlm_component`, run over
dependencies that all carry no tangent value, only collects the
homogenized boundary conditions and leaves the right-hand-side
accumulator untouched. -/
theorem tlm_fold_all_none (b : GenericSolveBlock) (F_form : Term)
    (deps : List BlockVariable) (bcs0 : List Term) (acc : FormAcc)
    (hall : ∀ bv ∈ deps, bv.tlm_value = none) :
    deps.foldl (tlmStep b F_form) (bcs0, acc) =
      (bcs0 ++ (deps.filter
        (fun bv => bv.output.kind == CoeffKind.dirichletBC)).map
          (fun bv => Term.bcHomog bv.output), acc) := by
  induction deps generalizing bcs0 with
  | nil => simp
  | cons hd tl ih =>
      have hhd : hd.tlm_value = none := hall hd (by simp)
      have htl : ∀ bv ∈ tl, bv.tlm_value = none := fun bv hbv =>
        hall bv (by simp [hbv])
      by_cases hk : hd.output.kind = CoeffKind.dirichletBC
      · simp [tlmStep, hhd, hk, ih _ htl]
      · simp [tlmStep, hhd, hk, ih _ htl]

/-- C7: when every dependency carries `tlm_value = None`,
`evaluate_tlm_component` builds the explicit zero right-hand-side form
`inner(Constant(zeros(v.ufl_shape)), v)*dx` on the output's test
function instead of leaving the right-hand side undefined, and still
performs the tangent-linear solve with it (under the collected
homogenized boundary conditions). -/
theorem tlm_zero_rhs_explicit (b : GenericSolveBlock) (p : PreparedTlm)
    (hall : ∀ bv ∈ b.deps, bv.tlm_value = none) :
    b.evaluate_tlm_component p =
      assembledSolve
        (Term.assembleAVbcs p.dFdu (termOfList
          ((b.deps.filter
            (fun bv => bv.output.kind == CoeffKind.dirichletBC)).map
              (fun bv => Term.bcHomog bv.output))))
        (Term.assembleAV (Term.expand (Term.innerDx
          (Term.zeroConstant (Term.argumentsHead p.dFdu))
          (Term.argumentsHead p.dFdu))))
        (Term.createFunction (b.getOutput0).output.fs)
        ((b.deps.filter
          (fun bv => bv.output.kind == CoeffKind.dirichletBC)).map
            (fun bv => Term.bcHomog bv.output)) := by
  have h := tlm_fold_all_none b p.form b.deps [] FormAcc.zero hall
  simp [GenericSolveBlock.evaluate_tlm_component, h]

/-- C7 witness: a concrete block with one boundary-condition dependency
and one field dependency, both without tangent value. -/
theorem tlm_zero_rhs_explicit_witness :
    (∀ bv ∈ (⟨UflValue.form [⟨CoeffKind.function, 3, 3⟩] true
        ⟨CoeffKind.mesh, 0, 0⟩, UflValue.intZero, ⟨CoeffKind.function, 1, 1⟩,
        [⟨CoeffKind.dirichletBC, 2, 2⟩], false, none,
        [⟨⟨CoeffKind.function, 3, 3⟩, ⟨CoeffKind.function, 3, 3⟩, none⟩,
         ⟨⟨CoeffKind.dirichletBC, 2, 2⟩, ⟨CoeffKind.dirichletBC, 2, 2⟩, none⟩],
        []⟩ : GenericSolveBlock).deps, bv.tlm_value = none) ∧
    (⟨UflValue.form [⟨CoeffKind.function, 3, 3⟩] true ⟨CoeffKind.mesh, 0, 0⟩,
        UflValue.intZero, ⟨CoeffKind.function, 1, 1⟩,
        [⟨CoeffKind.dirichletBC, 2, 2⟩], false, none,
        [⟨⟨CoeffKind.function, 3, 3⟩, ⟨CoeffKind.function, 3, 3⟩, none⟩,
         ⟨⟨CoeffKind.dirichletBC, 2, 2⟩, ⟨CoeffKind.dirichletBC, 2, 2⟩, none⟩],
        []⟩ : GenericSolveBlock).evaluate_tlm_component
      ⟨Term.zeroInt, Term.pyNone⟩ =
      assembledSolve
        (Term.assembleAVbcs Term.pyNone
          (termOfList [Term.bcHomog ⟨CoeffKind.dirichletBC, 2, 2⟩]))
        (Term.assembleAV (Term.expand (Term.innerDx
          (Term.zeroConstant (Term.argumentsHead Term.pyNone))
          (Term.argumentsHead Term.pyNone))))
        (Term.createFunction 0)
        [Term.bcHomog ⟨CoeffKind.dirichletBC, 2, 2⟩] :=
  ⟨by decide,
   tlm_zero_rhs_explicit
     ⟨UflValue.form [⟨CoeffKind.function, 3, 3⟩] true ⟨CoeffKind.mesh, 0, 0⟩,
       UflValue.intZero, ⟨CoeffKind.function, 1, 1⟩,
       [⟨CoeffKind.dirichletBC, 2, 2⟩], false, none,
       [⟨⟨CoeffKind.function, 3, 3⟩, ⟨CoeffKind.function, 3, 3⟩, none⟩,
        ⟨⟨CoeffKind.dirichletBC, 2, 2⟩, ⟨CoeffKind.dirichletBC, 2, 2⟩, none⟩],
       []⟩ ⟨Term.zeroInt, Term.pyNone⟩ (by decide)⟩

/-- C8 counterexample: the residual `F == 0` of a nonlinear-style solve
call with `F` expression-linear in the unknown has both sides
expression-linear in the unknown (the integer right-hand side `0` is
trivially linear), yet the constructor sets `linear = False` — the
`linear` flag is not equivalent to expression-linearity of both sides. -/
theorem linear_flag_cx :
    ¬ (((GenericSolveBlock.init (UflValue.form [] true ⟨CoeffKind.mesh, 0, 0⟩)
          UflValue.intZero ⟨CoeffKind.function, 1, 1⟩ []).linear = true) ↔
        (spec_expression_linear_in_unknown
            (UflValue.form [] true ⟨CoeffKind.mesh, 0, 0⟩) = true ∧
          spec_expression_linear_in_unknown UflValue.intZero = true)) := by
  decide

/-- C8 (amended): the `linear` flag is set at construction to true iff
both residual sides are `ufl.Form` instances (the syntactic linear-
problem convention), irrespective of actual linearity in the unknown. -/
theorem linear_flag_iff_forms (lhs rhs : UflValue) (func : Coeff)
    (bcs : List Coeff) :
    (GenericSolveBlock.init lhs rhs func bcs).linear =
      (lhs.isForm && rhs.isForm) := by
  rfl
